import Mathlib

/-!
Shallow embedding of the real-estate-management dashboard's business logic:
the data model (`types/property.ts`, `types/notification.ts`), the dashboard
mutation handlers (`app/dashboard/page.tsx`), the add-property / record-payment /
send-notification dialog submit handlers, the auth signup flow
(`contexts/auth-context.tsx`) and the lease-expiry helpers (`lib/utils.ts`),
together with theorems settling the frozen claims about them.

Conventions of the embedding:
- JS strings are Lean `String`; optional fields (`field?: T`) are `Option`.
- Numeric form fields (`rent`, `amount`, `bedrooms`, ...) are kept as their
  source text (`String`): they are produced by `parseFloat`/`parseInt` on form
  input and no claim depends on their numeric interpretation.
- Calendar dates are the `YMD` structure; a stored `"YYYY-MM-DD"` string is
  `isoDate` of a `YMD`. `new Date()` at the moment of an operation is passed in
  as an explicit `today : YMD` (or, for the millisecond-precision lease-expiry
  helpers, as `nowMs : Int`).
- `localStorage` is a function from string keys to an optional stored JSON
  value, where the stored value is one of the three serialized collections.
-/

namespace RealEstate

/-- Property occupancy status: `"vacant" | "occupied" | "maintenance"`. -/
inductive PropStatus
| vacant
| occupied
| maintenance
deriving DecidableEq, Repr

/-- Property type: `"apartment" | "house" | "commercial" | "land"`. -/
inductive PropertyType
| apartment
| house
| commercial
| land
deriving DecidableEq, Repr

/-- Property payment status: `"paid" | "pending" | "overdue"`. -/
inductive PaymentStatus
| paid
| pending
| overdue
deriving DecidableEq, Repr

/-- Payment method: `"cash" | "bank_transfer" | "card" | "check"`. -/
inductive PayMethod
| cash
| bank_transfer
| card
| check
deriving DecidableEq, Repr

/-- Payment record status: `"completed" | "pending" | "failed"`. -/
inductive PayRecordStatus
| completed
| pending
| failed
deriving DecidableEq, Repr

/-- Notification type: `"general" | "reminder" | "maintenance" | "payment" | "announcement"`. -/
inductive NotifType
| general
| reminder
| maintenance
| payment
| announcement
deriving DecidableEq, Repr

/-- Notification status: `"sent" | "pending" | "failed"`. -/
inductive NotifStatus
| sent
| pending
| failed
deriving DecidableEq, Repr

/-- A calendar date (year, month 1-12, day 1-31), as denoted by the date part
of a JS `Date` in UTC. -/
structure YMD where
  year : Nat
  month : Nat
  day : Nat
deriving DecidableEq, Repr

/-- Gregorian leap-year rule used by JS `Date`. -/
def isLeapYear (y : Nat) : Bool :=
  (y % 4 == 0 && y % 100 != 0) || y % 400 == 0

/-- Number of days in month `m` of year `y`. -/
def daysInMonth (y m : Nat) : Nat :=
  if m == 2 then (if isLeapYear y then 29 else 28)
  else if m == 4 || m == 6 || m == 9 || m == 11 then 30
  else 31

/-- JS `d.setMonth(d.getMonth() + 1)`: advance the month by one (carrying into
the year), then normalize a day-of-month overflow into the following month the
way `Date` does (e.g. Jan 31 becomes Mar 3). Since the source day is at most 31
the overflow carries at most one month. -/
def jsAddOneMonth (d : YMD) : YMD :=
  let y := if d.month == 12 then d.year + 1 else d.year
  let m := if d.month == 12 then 1 else d.month + 1
  if d.day ≤ daysInMonth y m then ⟨y, m, d.day⟩
  else
    let y2 := if m == 12 then y + 1 else y
    let m2 := if m == 12 then 1 else m + 1
    ⟨y2, m2, d.day - daysInMonth y m⟩

/-- Embeds `new Date(today.getFullYear(), today.getMonth() + 1, 1)`: the first day of
the month following `today`. -/
def firstOfFollowingMonth (d : YMD) : YMD :=
  if d.month == 12 then ⟨d.year + 1, 1, 1⟩ else ⟨d.year, d.month + 1, 1⟩

/-- Zero-pad a number to two digits, as in an ISO date. -/
def pad2 (n : Nat) : String :=
  if n < 10 then "0" ++ toString n else toString n

/-- Zero-pad a year to four digits, as in an ISO date. -/
def pad4 (n : Nat) : String :=
  if n < 10 then "000" ++ toString n
  else if n < 100 then "00" ++ toString n
  else if n < 1000 then "0" ++ toString n
  else toString n

/-- Embeds `d.toISOString().split("T")[0]`: the `"YYYY-MM-DD"` rendering of a date. -/
def isoDate (d : YMD) : String :=
  pad4 d.year ++ "-" ++ pad2 d.month ++ "-" ++ pad2 d.day

/-- The `Property` interface of `types/property.ts`. -/
structure Property where
  id : String
  userId : Option String
  name : String
  rent : String
  occupant : Option String
  occupantEmail : Option String
  occupantPhone : Option String
  stayPeriod : Option String
  leaseStartDate : Option String
  leaseEndDate : Option String
  status : PropStatus
  propertyType : Option PropertyType
  address : Option String
  bedrooms : Option String
  bathrooms : Option String
  squareFeet : Option String
  createdAt : String
  lastPaymentDate : Option String
  nextPaymentDue : Option String
  paymentStatus : PaymentStatus
deriving DecidableEq, Repr

/-- The `Payment` interface of `types/property.ts`. -/
structure Payment where
  id : String
  userId : Option String
  propertyId : String
  propertyName : String
  occupantName : String
  amount : String
  paymentDate : String
  paymentMethod : PayMethod
  status : PayRecordStatus
  receiptNumber : Option String
  notes : Option String
  createdAt : String
deriving DecidableEq, Repr

/-- The `Notification` interface of `types/notification.ts` (the one the
send-notification dialog constructs), extended with the `userId` stamped on by
the dashboard handler. -/
structure Notification where
  id : String
  userId : Option String
  propertyId : String
  propertyName : String
  recipientName : String
  recipientEmail : Option String
  subject : String
  message : String
  type : NotifType
  status : NotifStatus
  sentAt : String
  createdAt : String
deriving DecidableEq, Repr

/-- A value stored in one `localStorage` slot: the JSON serialization of one of
the three per-user collections. -/
inductive StoredValue
| props : List Property → StoredValue
| pays : List Payment → StoredValue
| notifs : List Notification → StoredValue
deriving DecidableEq, Repr

/-- The `localStorage` model: a map from string keys to an optional stored value. -/
def LocalStore : Type := String → Option StoredValue

/-- Models `localStorage.setItem(k, v)`. -/
def setItem (s : LocalStore) (k : String) (v : StoredValue) : LocalStore :=
  fun k2 => if k2 = k then some v else s k2

/-- The empty `localStorage`. -/
def emptyStore : LocalStore := fun _ => none

/-- The key `realestate_properties_${user.id}`. -/
def storageKeyProperties (uid : String) : String :=
  "realestate_properties_" ++ uid

/-- The key `realestate_payments_${user.id}`. -/
def storageKeyPayments (uid : String) : String :=
  "realestate_payments_" ++ uid

/-- The key `realestate_notifications_${user.id}`. -/
def storageKeyNotifications (uid : String) : String :=
  "realestate_notifications_" ++ uid

/-- The authenticated user as seen by the dashboard (`User` of
`contexts/auth-context.tsx`). -/
structure User where
  id : String
  email : String
  name : String
  createdAt : String
  isNewUser : Bool
deriving DecidableEq, Repr

/-- The dashboard page's React state: the three in-memory collections. -/
structure DashboardState where
  properties : List Property
  payments : List Payment
  notifications : List Notification
deriving DecidableEq, Repr

/-- Embeds `handleAddProperty` of `app/dashboard/page.tsx`: stamp the user id on the
property, append it, and persist the new property list. -/
def handleAddProperty (user : User) (st : DashboardState) (store : LocalStore)
    (property : Property) : DashboardState × LocalStore :=
  let propertyWithUser := { property with userId := some user.id }
  let newProperties := st.properties ++ [propertyWithUser]
  ({ st with properties := newProperties },
   setItem store (storageKeyProperties user.id) (.props newProperties))

/-- Embeds `handleDeleteProperty` of `app/dashboard/page.tsx`: keep the properties
whose id differs, and persist the new property list. -/
def handleDeleteProperty (user : User) (st : DashboardState) (store : LocalStore)
    (id : String) : DashboardState × LocalStore :=
  let newProperties := st.properties.filter (fun p => p.id != id)
  ({ st with properties := newProperties },
   setItem store (storageKeyProperties user.id) (.props newProperties))

/-- Embeds `handleEditProperty` of `app/dashboard/page.tsx`: replace the property with
the matching id, and persist the new property list. -/
def handleEditProperty (user : User) (st : DashboardState) (store : LocalStore)
    (updatedProperty : Property) : DashboardState × LocalStore :=
  let newProperties := st.properties.map
    (fun p => if p.id == updatedProperty.id then updatedProperty else p)
  ({ st with properties := newProperties },
   setItem store (storageKeyProperties user.id) (.props newProperties))

/-- Embeds `handleSendNotification` of `app/dashboard/page.tsx`: stamp the user id on
the notification, append it, and persist the new notification list. -/
def handleSendNotification (user : User) (st : DashboardState) (store : LocalStore)
    (notification : Notification) : DashboardState × LocalStore :=
  let notificationWithUser := { notification with userId := some user.id }
  let newNotifications := st.notifications ++ [notificationWithUser]
  ({ st with notifications := newNotifications },
   setItem store (storageKeyNotifications user.id) (.notifs newNotifications))

/-- The per-property update performed inside `handleRecordPayment`'s
`properties.map`: on the property whose id matches the payment's `propertyId`,
set `paymentStatus` to `"paid"`, `lastPaymentDate` to the payment's date, and
`nextPaymentDue` to one month after `today` (the code's
`const nextMonth = new Date(); nextMonth.setMonth(nextMonth.getMonth() + 1)`
followed by `toISOString().split("T")[0]`). -/
def applyPaymentToProperty (payment : Payment) (today : YMD) (p : Property) : Property :=
  if p.id == payment.propertyId then
    { p with paymentStatus := .paid,
             lastPaymentDate := some payment.paymentDate,
             nextPaymentDue := some (isoDate (jsAddOneMonth today)) }
  else p

/-- Embeds `handleRecordPayment` of `app/dashboard/page.tsx`: stamp the user id on the
payment, append it and persist the payment list under the payments key, then
update the matching property in memory and persist the updated property list —
under `storageKeyPayments` again, exactly as line 128 of the source does. -/
def handleRecordPayment (user : User) (st : DashboardState) (store : LocalStore)
    (payment : Payment) (today : YMD) : DashboardState × LocalStore :=
  let paymentWithUser := { payment with userId := some user.id }
  let newPayments := st.payments ++ [paymentWithUser]
  let store1 := setItem store (storageKeyPayments user.id) (.pays newPayments)
  let updatedProperties := st.properties.map (applyPaymentToProperty payment today)
  ({ st with payments := newPayments, properties := updatedProperties },
   setItem store1 (storageKeyPayments user.id) (.props updatedProperties))

/-- JS `s || undefined` for a string form field: empty becomes `undefined`. -/
def orUndefined (s : String) : Option String :=
  if s = "" then none else some s

/-- JS `o || dflt` for an optional string: `undefined` and `""` both fall back. -/
def jsOrDefault (o : Option String) (dflt : String) : String :=
  match o with
  | some s => if s = "" then dflt else s
  | none => dflt

/-- JS `s.trim()`: drop whitespace from both ends (kept structurally recursive
so that concrete instances evaluate). -/
def jsTrim (s : String) : String :=
  ⟨((s.data.dropWhile Char.isWhitespace).reverse.dropWhile
      Char.isWhitespace).reverse⟩

/-- JS truthiness of an optional string: `undefined` and `""` are falsy. -/
def truthy (o : Option String) : Bool :=
  match o with
  | some s => s ≠ ""
  | none => false

/-- The `formData` state of `add-property-dialog.tsx`. The property type is
`Option PropertyType` with `none` for the initial `""`. -/
structure AddPropertyForm where
  name : String
  rent : String
  occupant : String
  occupantEmail : String
  occupantPhone : String
  stayPeriod : String
  leaseStartDate : String
  leaseEndDate : String
  status : PropStatus
  propertyType : Option PropertyType
  address : String
  bedrooms : String
  bathrooms : String
  squareFeet : String
deriving DecidableEq, Repr

/-- Embeds `handleSubmit` of `add-property-dialog.tsx`: validate name/rent/type, then
build the new `Property`. `today` is `new Date()` at submission time, `newId`
is `crypto.randomUUID()`, and `nowIso` is `new Date().toISOString()`. Returns
`none` when validation blocks the submission (the code alerts and returns). -/
def addPropertySubmit (form : AddPropertyForm) (today : YMD)
    (newId nowIso : String) : Option Property :=
  if form.name = "" ∨ form.rent = "" then none
  else if form.propertyType = none then none
  else some
    { id := newId
      userId := none
      name := form.name
      rent := form.rent
      occupant := orUndefined form.occupant
      occupantEmail := orUndefined form.occupantEmail
      occupantPhone := orUndefined form.occupantPhone
      stayPeriod := orUndefined form.stayPeriod
      leaseStartDate := orUndefined form.leaseStartDate
      leaseEndDate := orUndefined form.leaseEndDate
      status := form.status
      propertyType := form.propertyType
      address := orUndefined form.address
      bedrooms := orUndefined form.bedrooms
      bathrooms := orUndefined form.bathrooms
      squareFeet := orUndefined form.squareFeet
      createdAt := nowIso
      lastPaymentDate := none
      nextPaymentDue :=
        if form.occupant ≠ "" then some (isoDate (firstOfFollowingMonth today)) else none
      paymentStatus := if form.occupant ≠ "" then .pending else .paid }

/-- The `formData` state of `record-payment-dialog.tsx`. -/
structure PaymentForm where
  amount : String
  paymentDate : String
  paymentMethod : PayMethod
  receiptNumber : String
  notes : String
deriving DecidableEq, Repr

/-- Embeds `handleSubmit` of `record-payment-dialog.tsx`: validate amount and date,
then build the `Payment` with `status: "completed"`. Returns `none` when
validation blocks the submission. -/
def recordPaymentSubmit (property : Property) (form : PaymentForm)
    (newId nowIso : String) : Option Payment :=
  if form.amount = "" ∨ form.paymentDate = "" then none
  else some
    { id := newId
      userId := none
      propertyId := property.id
      propertyName := property.name
      occupantName := jsOrDefault property.occupant "Unknown"
      amount := form.amount
      paymentDate := form.paymentDate
      paymentMethod := form.paymentMethod
      status := .completed
      receiptNumber := orUndefined form.receiptNumber
      notes := orUndefined form.notes
      createdAt := nowIso }

/-- The dialog banner state of `send-notification-dialog.tsx`
(`"idle" | "success" | "error"`). -/
inductive SendStatus
| idle
| success
| error
deriving DecidableEq, Repr

/-- The observable outcome of one `handleSubmit` run of
`send-notification-dialog.tsx`: the notification passed to `onSend` (if any),
the resulting banner state, the validation alert message (if any), and whether
the external email-send call was made. -/
structure NotifSubmitResult where
  appended : Option Notification
  sendStatus : SendStatus
  validationAlert : Option String
  emailCalled : Bool
deriving DecidableEq, Repr

/-- Embeds `handleSubmit` of `send-notification-dialog.tsx`. Validation: an occupant
must be present, and subject and message must be non-blank after `trim()`.
Then, if `recipientEmail && recipientEmail.trim()`, the external email call is
awaited first; `emailOk` says whether that call succeeds (`response.ok`). On
failure the `catch` block runs: no notification record is built, `onSend` is
never called, and the banner is set to `"error"`. Only when the email call
succeeds (or is skipped) is the record built and passed to `onSend`, with
`status: recipientEmail ? "sent" : "sent"` as in the source. -/
def notifSubmit (property : Property) (subject message : String)
    (ntype : NotifType) (recipientEmail : String) (emailOk : Bool)
    (newId nowIso : String) : NotifSubmitResult :=
  if ¬ truthy property.occupant then
    { appended := none
      sendStatus := .idle
      validationAlert := some "This property has no occupant to send notification to."
      emailCalled := false }
  else if jsTrim subject = "" ∨ jsTrim message = "" then
    { appended := none
      sendStatus := .idle
      validationAlert := some "Please fill in all required fields."
      emailCalled := false }
  else
    let wantsEmail := recipientEmail ≠ "" ∧ jsTrim recipientEmail ≠ ""
    let notification : Notification :=
      { id := newId
        userId := none
        propertyId := property.id
        propertyName := property.name
        recipientName := property.occupant.getD ""
        recipientEmail := orUndefined recipientEmail
        subject := subject
        message := message
        type := ntype
        status := if recipientEmail ≠ "" then NotifStatus.sent else NotifStatus.sent
        sentAt := nowIso
        createdAt := nowIso }
    if wantsEmail then
      if emailOk then
        { appended := some notification
          sendStatus := .success
          validationAlert := none
          emailCalled := true }
      else
        { appended := none
          sendStatus := .error
          validationAlert := none
          emailCalled := true }
    else
      { appended := some notification
        sendStatus := .success
        validationAlert := none
        emailCalled := false }

/-- A row of the `realestate_users` array (`contexts/auth-context.tsx`). -/
structure StoredUser where
  id : String
  email : String
  password : String
  name : String
  createdAt : String
deriving DecidableEq, Repr

/-- The persistent auth state: the registered-users array under
`realestate_users` and the current session under `realestate_user`. -/
structure AuthState where
  users : List StoredUser
  currentUser : Option User
deriving DecidableEq, Repr

/-- The `{ success, error? }` result of `signup` / `login`. -/
structure AuthResult where
  success : Bool
  error : Option String
deriving DecidableEq, Repr

/-- Embeds `signup` of `contexts/auth-context.tsx`: if some registered user already
has the email, fail with `"Email already registered"` and change nothing; else
push the new user and set the session with `isNewUser: true`. `newId` is the
generated `user_${Date.now()}` id and `nowIso` is `new Date().toISOString()`. -/
def signup (st : AuthState) (email password name : String)
    (newId nowIso : String) : AuthState × AuthResult :=
  match st.users.find? (fun u => u.email == email) with
  | some _ => (st, { success := false, error := some "Email already registered" })
  | none =>
    let newUser : StoredUser :=
      { id := newId, email := email, password := password, name := name, createdAt := nowIso }
    let userToStore : User :=
      { id := newUser.id, email := newUser.email, name := newUser.name,
        createdAt := newUser.createdAt, isNewUser := true }
    ({ users := st.users ++ [newUser], currentUser := some userToStore },
     { success := true, error := none })

/-- Milliseconds per day, the `1000 * 60 * 60 * 24` of `getDaysUntilExpiry`. -/
def msPerDay : Int := 1000 * 60 * 60 * 24

/-- Models `Math.ceil(a / b)` for integers with `b > 0`, as exact integer arithmetic:
the negated floor division of the negation. -/
def jsCeilDiv (a b : Int) : Int := -((-a).fdiv b)

/-- Embeds `getDaysUntilExpiry` of `lib/utils.ts`. `endMs` is
`new Date(leaseEndDate).getTime()` when `leaseEndDate` is present and truthy,
`none` otherwise; `nowMs` is `new Date().getTime()`. -/
def getDaysUntilExpiry (endMs : Option Int) (nowMs : Int) : Option Int :=
  match endMs with
  | none => none
  | some e => some (jsCeilDiv (e - nowMs) msPerDay)

/-- Embeds `isLeaseExpiringSoon` of `lib/utils.ts` (its `daysThreshold` defaults to 30
at every call site). -/
def isLeaseExpiringSoon (endMs : Option Int) (nowMs : Int) (daysThreshold : Int) : Bool :=
  match getDaysUntilExpiry endMs nowMs with
  | none => false
  | some daysUntil => decide (daysUntil > 0 ∧ daysUntil ≤ daysThreshold)

/-- Dashboard states (in-memory state plus `localStorage`) reachable from a
fresh session: the empty state, closed under the five dashboard handlers, where
a recorded payment is one produced by the record-payment dialog's submit. -/
inductive Reachable : DashboardState × LocalStore → Prop
| init : Reachable (⟨[], [], []⟩, emptyStore)
| addProperty (user : User) (s : DashboardState × LocalStore) (property : Property) :
    Reachable s → Reachable (handleAddProperty user s.1 s.2 property)
| deleteProperty (user : User) (s : DashboardState × LocalStore) (id : String) :
    Reachable s → Reachable (handleDeleteProperty user s.1 s.2 id)
| editProperty (user : User) (s : DashboardState × LocalStore) (updatedProperty : Property) :
    Reachable s → Reachable (handleEditProperty user s.1 s.2 updatedProperty)
| sendNotification (user : User) (s : DashboardState × LocalStore) (notification : Notification) :
    Reachable s → Reachable (handleSendNotification user s.1 s.2 notification)
| recordPayment (user : User) (s : DashboardState × LocalStore) (property : Property)
    (form : PaymentForm) (newId nowIso : String) (payment : Payment) (today : YMD) :
    Reachable s → recordPaymentSubmit property form newId nowIso = some payment →
    Reachable (handleRecordPayment user s.1 s.2 payment today)

/-- A sample signed-in user, for concrete instances. -/
def sampleUser : User :=
  { id := "u1", email := "alice@example.com", name := "Alice",
    createdAt := "2025-01-01T00:00:00.000Z", isNewUser := false }

/-- A sample occupied property, for concrete instances. -/
def sampleProperty : Property :=
  { id := "prop1", userId := some "u1", name := "Unit 1", rent := "150000",
    occupant := some "Jane", occupantEmail := some "jane@example.com",
    occupantPhone := none, stayPeriod := none, leaseStartDate := none,
    leaseEndDate := none, status := .occupied, propertyType := some .apartment,
    address := none, bedrooms := none, bathrooms := none, squareFeet := none,
    createdAt := "2025-01-01T00:00:00.000Z", lastPaymentDate := none,
    nextPaymentDue := some "2025-02-01", paymentStatus := .pending }

/-- A sample payment against `sampleProperty`, dated 2025-03-01. -/
def samplePayment : Payment :=
  { id := "pay1", userId := none, propertyId := "prop1", propertyName := "Unit 1",
    occupantName := "Jane", amount := "150000", paymentDate := "2025-03-01",
    paymentMethod := .bank_transfer, status := .completed, receiptNumber := none,
    notes := none, createdAt := "2025-06-15T00:00:00.000Z" }

/-- A sample dashboard state holding just `sampleProperty`. -/
def sampleState : DashboardState :=
  { properties := [sampleProperty], payments := [], notifications := [] }

/-- A sample `localStorage` with `sampleProperty` persisted under the
properties key and an empty payment history under the payments key. -/
def sampleStore : LocalStore :=
  setItem (setItem emptyStore (storageKeyProperties "u1") (.props [sampleProperty]))
    (storageKeyPayments "u1") (.pays [])

/-- A sample "today": 2025-06-15. -/
def sampleToday : YMD := ⟨2025, 6, 15⟩

/-- A sample vacant property with no occupant. -/
def sampleVacantProperty : Property :=
  { id := "prop2", userId := some "u1", name := "Unit 2", rent := "90000",
    occupant := none, occupantEmail := none, occupantPhone := none,
    stayPeriod := none, leaseStartDate := none, leaseEndDate := none,
    status := .vacant, propertyType := some .house, address := none,
    bedrooms := none, bathrooms := none, squareFeet := none,
    createdAt := "2025-01-01T00:00:00.000Z", lastPaymentDate := none,
    nextPaymentDue := none, paymentStatus := .paid }

/-- A sample dashboard state holding two properties with distinct ids. -/
def twoPropState : DashboardState :=
  { properties := [sampleProperty, sampleVacantProperty], payments := [],
    notifications := [] }

/-- A sample filled record-payment form. -/
def samplePaymentForm : PaymentForm :=
  { amount := "150000", paymentDate := "2025-03-01",
    paymentMethod := .bank_transfer, receiptNumber := "", notes := "" }

/-- A sample add-property form with an occupant. -/
def sampleAddFormOccupied : AddPropertyForm :=
  { name := "Unit 1", rent := "150000", occupant := "Jane",
    occupantEmail := "jane@example.com", occupantPhone := "", stayPeriod := "",
    leaseStartDate := "", leaseEndDate := "", status := .occupied,
    propertyType := some .apartment, address := "", bedrooms := "",
    bathrooms := "", squareFeet := "" }

/-- A sample add-property form with no occupant. -/
def sampleAddFormVacant : AddPropertyForm :=
  { name := "Unit 2", rent := "90000", occupant := "", occupantEmail := "",
    occupantPhone := "", stayPeriod := "", leaseStartDate := "",
    leaseEndDate := "", status := .vacant, propertyType := some .house,
    address := "", bedrooms := "", bathrooms := "", squareFeet := "" }

/-- A sample registered user row. -/
def sampleStoredUser : StoredUser :=
  { id := "user_1", email := "alice@example.com", password := "secret",
    name := "Alice", createdAt := "2025-01-01T00:00:00.000Z" }

/-- A sample auth state with one registered user and no session. -/
def sampleAuthState : AuthState :=
  { users := [sampleStoredUser], currentUser := none }

/-- The spec's "exactly one calendar month after the payment date": the same
day of month with the month advanced by one, carrying into the year. Stated
from the claim's words, to compare against what the code computes. -/
def oneCalendarMonthAfter (d : YMD) : YMD :=
  if d.month = 12 then ⟨d.year + 1, 1, d.day⟩ else ⟨d.year, d.month + 1, d.day⟩

lemma storageKeyProperties_ne_payments (uid : String) :
    storageKeyProperties uid ≠ storageKeyPayments uid := by
  intro h
  have h2 := congrArg String.length h
  rw [storageKeyProperties, storageKeyPayments, String.length_append,
    String.length_append] at h2
  have e1 : "realestate_properties_".length = 22 := rfl
  have e2 : "realestate_payments_".length = 20 := rfl
  omega

lemma storageKeyProperties_ne_notifications (uid : String) :
    storageKeyProperties uid ≠ storageKeyNotifications uid := by
  intro h
  have h2 := congrArg String.length h
  rw [storageKeyProperties, storageKeyNotifications, String.length_append,
    String.length_append] at h2
  have e1 : "realestate_properties_".length = 22 := rfl
  have e2 : "realestate_notifications_".length = 25 := rfl
  omega

lemma List.length_filter_not_add_countP {α : Type} (l : List α) (f : α → Bool) :
    (l.filter (fun a => !(f a))).length + l.countP f = l.length := by
  induction l with
  | nil => simp
  | cons a t ih =>
    by_cases h : f a = true <;>
      simp [List.filter_cons, List.countP_cons, h] <;> omega

lemma jsCeilDiv_spec (a b : Int) (hb : 0 < b) :
    b * (jsCeilDiv a b - 1) < a ∧ a ≤ b * jsCeilDiv a b := by
  have hadd := Int.fdiv_add_fmod (-a) b
  have h0 := Int.fmod_nonneg' (-a) hb
  have hlt := Int.fmod_lt_of_pos (-a) hb
  unfold jsCeilDiv
  constructor <;> nlinarith [hadd, h0, hlt]

lemma jsCeilDiv_eq_ceil (a b : Int) (hb : 0 < b) :
    jsCeilDiv a b = ⌈(a : ℚ) / (b : ℚ)⌉ := by
  obtain ⟨h1, h2⟩ := jsCeilDiv_spec a b hb
  symm
  rw [Int.ceil_eq_iff]
  have hbq : (0 : ℚ) < (b : ℚ) := by exact_mod_cast hb
  have h1q : ((b : ℚ)) * ((jsCeilDiv a b : ℚ) - 1) < (a : ℚ) := by exact_mod_cast h1
  have h2q : (a : ℚ) ≤ ((b : ℚ)) * (jsCeilDiv a b : ℚ) := by exact_mod_cast h2
  constructor
  · rw [lt_div_iff₀ hbq]
    nlinarith [h1q]
  · rw [div_le_iff₀ hbq]
    nlinarith [h2q]

lemma jsCeilDiv_mul_self (k b : Int) (hb : b ≠ 0) : jsCeilDiv (k * b) b = k := by
  unfold jsCeilDiv
  rw [show -(k * b) = (-k) * b by ring, Int.mul_fdiv_cancel _ hb]
  ring

lemma jsCeilDiv_nonpos (a b : Int) (ha : a ≤ 0) (hb : 0 ≤ b) : jsCeilDiv a b ≤ 0 := by
  unfold jsCeilDiv
  have := Int.fdiv_nonneg (by omega : (0 : Int) ≤ -a) hb
  omega

/-- Claim C4: for every property submitted through the add-property dialog, if
the form has no occupant the created record's paymentStatus is "paid", and if
it has an occupant the created record's paymentStatus is "pending". -/
theorem add_paymentStatus_by_occupant (form : AddPropertyForm) (today : YMD)
    (newId nowIso : String) (prop : Property)
    (h : addPropertySubmit form today newId nowIso = some prop) :
    (form.occupant = "" → prop.paymentStatus = .paid) ∧
    (form.occupant ≠ "" → prop.paymentStatus = .pending) := by
  unfold addPropertySubmit at h
  split at h
  · exact Option.noConfusion h
  · split at h
    · exact Option.noConfusion h
    · injection h with h2
      subst h2
      refine ⟨fun hx => ?_, fun hx => ?_⟩ <;> simp [hx]

/-- Witness for C4: the sample occupied submission yields paymentStatus
"pending". -/
theorem add_paymentStatus_by_occupant_witness :
    (addPropertySubmit sampleAddFormOccupied sampleToday "p9"
        "2025-06-15T00:00:00.000Z").map Property.paymentStatus =
      some PaymentStatus.pending := by
  obtain ⟨prop, hp⟩ : ∃ p, addPropertySubmit sampleAddFormOccupied sampleToday "p9"
      "2025-06-15T00:00:00.000Z" = some p := ⟨_, rfl⟩
  rw [hp]
  have h := add_paymentStatus_by_occupant sampleAddFormOccupied sampleToday "p9"
    "2025-06-15T00:00:00.000Z" prop hp
  simp [h.2 (by decide)]

/-- Claim C5: a property added with an occupant gets nextPaymentDue equal to
the first day of the month following the creation date (`today`); one added
with no occupant gets no nextPaymentDue. The trailing conjuncts pin down that
`firstOfFollowingMonth` really is the first day of the following month. -/
theorem add_nextPaymentDue_by_occupant (form : AddPropertyForm) (today : YMD)
    (newId nowIso : String) (prop : Property)
    (h : addPropertySubmit form today newId nowIso = some prop) :
    (form.occupant ≠ "" →
      prop.nextPaymentDue = some (isoDate (firstOfFollowingMonth today))) ∧
    (form.occupant = "" → prop.nextPaymentDue = none) ∧
    (firstOfFollowingMonth today).day = 1 ∧
    (firstOfFollowingMonth today).month =
      (if today.month = 12 then 1 else today.month + 1) ∧
    (firstOfFollowingMonth today).year =
      (if today.month = 12 then today.year + 1 else today.year) := by
  unfold addPropertySubmit at h
  split at h
  · exact Option.noConfusion h
  · split at h
    · exact Option.noConfusion h
    · injection h with h2
      subst h2
      refine ⟨fun hx => ?_, fun hx => ?_, ?_, ?_, ?_⟩
      · simp [hx]
      · simp [hx]
      · unfold firstOfFollowingMonth
        by_cases hm : today.month = 12 <;> simp [hm]
      · unfold firstOfFollowingMonth
        by_cases hm : today.month = 12 <;> simp [hm]
      · unfold firstOfFollowingMonth
        by_cases hm : today.month = 12 <;> simp [hm]

/-- Witness for C5: the sample occupied submission on 2025-06-15 yields
nextPaymentDue "2025-07-01", and the vacant one yields none. -/
theorem add_nextPaymentDue_by_occupant_witness :
    (addPropertySubmit sampleAddFormOccupied sampleToday "p9"
        "2025-06-15T00:00:00.000Z").map Property.nextPaymentDue =
      some (some "2025-07-01") := by
  obtain ⟨prop, hp⟩ : ∃ p, addPropertySubmit sampleAddFormOccupied sampleToday "p9"
      "2025-06-15T00:00:00.000Z" = some p := ⟨_, rfl⟩
  rw [hp]
  have h := add_nextPaymentDue_by_occupant sampleAddFormOccupied sampleToday "p9"
    "2025-06-15T00:00:00.000Z" prop hp
  show some prop.nextPaymentDue = some (some "2025-07-01")
  rw [h.1 (by decide)]
  decide

/-- Claim C8: for every email already present in the user store, signup with
that email fails with the duplicate-email error and returns the auth state
(registered users and current session) entirely unchanged. -/
theorem signup_duplicate_email_noop (st : AuthState)
    (email password name newId nowIso : String)
    (h : ∃ u ∈ st.users, u.email = email) :
    signup st email password name newId nowIso =
      (st, { success := false, error := some "Email already registered" }) := by
  have hsome : (st.users.find? (fun u => u.email == email)).isSome = true := by
    rw [List.find?_isSome]
    obtain ⟨u, hu1, hu2⟩ := h
    exact ⟨u, hu1, by simp [hu2]⟩
  obtain ⟨v, hv⟩ := Option.isSome_iff_exists.mp hsome
  unfold signup
  rw [hv]

/-- Witness for C8: signing up again with the already-registered sample email
changes nothing and reports the duplicate-email error. -/
theorem signup_duplicate_email_noop_witness :
    signup sampleAuthState "alice@example.com" "hunter2" "Mallory" "user_2"
        "2025-06-15T00:00:00.000Z" =
      (sampleAuthState, { success := false, error := some "Email already registered" }) :=
  signup_duplicate_email_noop sampleAuthState "alice@example.com" "hunter2"
    "Mallory" "user_2" "2025-06-15T00:00:00.000Z"
    ⟨sampleStoredUser, by decide, by decide⟩

/-- Claim C9: every notification submission for a property with no occupant,
or with a blank subject or blank message, fails validation: no notification
record is created, no email call is made, and an alert is raised. -/
theorem notification_validation_blocks (property : Property)
    (subject message : String) (ntype : NotifType) (recipientEmail : String)
    (emailOk : Bool) (newId nowIso : String)
    (h : truthy property.occupant = false ∨ jsTrim subject = "" ∨ jsTrim message = "") :
    (notifSubmit property subject message ntype recipientEmail emailOk newId
        nowIso).appended = none ∧
    (notifSubmit property subject message ntype recipientEmail emailOk newId
        nowIso).emailCalled = false ∧
    (notifSubmit property subject message ntype recipientEmail emailOk newId
        nowIso).validationAlert.isSome = true := by
  unfold notifSubmit
  rcases h with h | h
  · simp [h]
  · by_cases hocc : truthy property.occupant = true
    · simp [hocc, h]
    · simp [hocc]

/-- Witness for C9: submitting for the vacant sample property is blocked
before any record or email call. -/
theorem notification_validation_blocks_witness :
    (notifSubmit sampleVacantProperty "Rent" "Rent is due." .reminder ""
        true "n1" "2025-06-15T00:00:00.000Z").appended = none ∧
    (notifSubmit sampleVacantProperty "Rent" "Rent is due." .reminder ""
        true "n1" "2025-06-15T00:00:00.000Z").emailCalled = false ∧
    (notifSubmit sampleVacantProperty "Rent" "Rent is due." .reminder ""
        true "n1" "2025-06-15T00:00:00.000Z").validationAlert.isSome = true :=
  notification_validation_blocks sampleVacantProperty "Rent" "Rent is due."
    .reminder "" true "n1" "2025-06-15T00:00:00.000Z" (Or.inl (by decide))

/-- Claim C7: for a property with a lease end date, the days-until-expiry is
the ceiling of the millisecond difference over one day (stated both as the
code's integer arithmetic and as the exact rational ceiling), expiring-soon
holds exactly when that count lies in (0, 30]; a lease ending 10 days from now
is expiring-soon, one 31 days out is not, one in the past is not, and a
property with no lease end date never is. -/
theorem lease_expiry_window (endMs nowMs : Int) :
    getDaysUntilExpiry (some endMs) nowMs =
      some (jsCeilDiv (endMs - nowMs) msPerDay) ∧
    jsCeilDiv (endMs - nowMs) msPerDay =
      ⌈((endMs - nowMs : Int) : ℚ) / (msPerDay : ℚ)⌉ ∧
    (isLeaseExpiringSoon (some endMs) nowMs 30 = true ↔
      0 < jsCeilDiv (endMs - nowMs) msPerDay ∧
        jsCeilDiv (endMs - nowMs) msPerDay ≤ 30) ∧
    isLeaseExpiringSoon (some (nowMs + 10 * msPerDay)) nowMs 30 = true ∧
    isLeaseExpiringSoon (some (nowMs + 31 * msPerDay)) nowMs 30 = false ∧
    (endMs ≤ nowMs → isLeaseExpiringSoon (some endMs) nowMs 30 = false) ∧
    isLeaseExpiringSoon none nowMs 30 = false := by
  have hday : (0 : Int) < msPerDay := by norm_num [msPerDay]
  have e10 : nowMs + 10 * msPerDay - nowMs = 10 * msPerDay := by ring
  have e31 : nowMs + 31 * msPerDay - nowMs = 31 * msPerDay := by ring
  refine ⟨rfl, jsCeilDiv_eq_ceil _ _ hday, ?_, ?_, ?_, ?_, rfl⟩
  · simp [isLeaseExpiringSoon, getDaysUntilExpiry]
  · simp [isLeaseExpiringSoon, getDaysUntilExpiry, e10,
      jsCeilDiv_mul_self 10 msPerDay (by omega)]
  · simp [isLeaseExpiringSoon, getDaysUntilExpiry, e31,
      jsCeilDiv_mul_self 31 msPerDay (by omega)]
  · intro hle
    have hnp := jsCeilDiv_nonpos (endMs - nowMs) msPerDay (by omega) (by omega)
    simp [isLeaseExpiringSoon, getDaysUntilExpiry]
    omega

/-- Witness for C7: a lease that ended five days before "now" is not
expiring-soon, and an absent lease end date never is. -/
theorem lease_expiry_window_witness :
    isLeaseExpiringSoon (some 0) (5 * msPerDay) 30 = false ∧
    isLeaseExpiringSoon none (5 * msPerDay) 30 = false := by
  have h := lease_expiry_window 0 (5 * msPerDay)
  exact ⟨h.2.2.2.2.2.1 (by norm_num [msPerDay]), h.2.2.2.2.2.2⟩

/-- Claim C1 counterexample: recording the sample payment (paymentDate
2025-03-01) on 2025-06-15 leaves the target property with nextPaymentDue
"2025-07-15" — one month after the recording date — while one calendar month
after the payment date is "2025-04-01". -/
theorem recordPayment_nextDue_ignores_paymentDate_cex :
    ((handleRecordPayment sampleUser sampleState sampleStore samplePayment
        sampleToday).1.properties.map Property.nextPaymentDue =
      [some "2025-07-15"]) ∧
    samplePayment.paymentDate = "2025-03-01" ∧
    isoDate (oneCalendarMonthAfter ⟨2025, 3, 1⟩) = "2025-04-01" ∧
    some "2025-07-15" ≠ some "2025-04-01" := by
  decide

/-- Claim C1 (amended): for every property in the current set and every payment
recorded against its id, record(payment) sets that property's paymentStatus to
"paid" and lastPaymentDate to the payment's given date, for every amount — but
nextPaymentDue becomes one month after the date the payment is recorded
(today), not after the payment's given date. -/
theorem recordPayment_updates_target_property (user : User)
    (st : DashboardState) (store : LocalStore) (payment : Payment)
    (today : YMD) (p : Property) (hp : p ∈ st.properties)
    (hid : p.id = payment.propertyId) :
    applyPaymentToProperty payment today p ∈
      (handleRecordPayment user st store payment today).1.properties ∧
    (applyPaymentToProperty payment today p).paymentStatus = .paid ∧
    (applyPaymentToProperty payment today p).lastPaymentDate =
      some payment.paymentDate ∧
    (applyPaymentToProperty payment today p).nextPaymentDue =
      some (isoDate (jsAddOneMonth today)) := by
  refine ⟨?_, ?_, ?_, ?_⟩
  · exact List.mem_map_of_mem _ hp
  · unfold applyPaymentToProperty
    simp [hid]
  · unfold applyPaymentToProperty
    simp [hid]
  · unfold applyPaymentToProperty
    simp [hid]

/-- Witness for C1 (amended): at the sample inputs the target property comes
out paid, stamped with the payment date, and due again on 2025-07-15. -/
theorem recordPayment_updates_target_property_witness :
    (applyPaymentToProperty samplePayment sampleToday
        sampleProperty).paymentStatus = .paid ∧
    (applyPaymentToProperty samplePayment sampleToday
        sampleProperty).lastPaymentDate = some "2025-03-01" ∧
    (applyPaymentToProperty samplePayment sampleToday
        sampleProperty).nextPaymentDue = some "2025-07-15" := by
  have h := recordPayment_updates_target_property sampleUser sampleState
    sampleStore samplePayment sampleToday sampleProperty (by decide) (by decide)
  exact ⟨h.2.1, h.2.2.1, by rw [h.2.2.2]; decide⟩

/-- Claim C2: when the sample occupied property is notified with a non-empty
subject and message and a recipient email, and the external email-send call
fails, the submit handler's catch path runs: the error banner is shown but NO
notification record is handed to `onSend` — the local write does not happen,
contrary to the claim (and to the banner text "Notification saved locally"). -/
theorem notification_email_failure_drops_record :
    notifSubmit sampleProperty "Rent reminder" "Rent is due this week."
        .reminder "jane@example.com" false "n1" "2025-06-15T00:00:00.000Z" =
      { appended := none, sendStatus := .error, validationAlert := none,
        emailCalled := true } := by
  decide

/-- Claim C3: after recording the sample payment, the persisted store does NOT
hold the appended payments under the payments key and does NOT hold the
updated property under the properties key. Line 128 of the dashboard page
writes the updated property list under `storageKeyPayments`, so the payments
key ends up holding a property list and the properties key keeps the stale,
still-pending property. -/
theorem recordPayment_persists_to_wrong_key :
    ((handleRecordPayment sampleUser sampleState sampleStore samplePayment
        sampleToday).2 (storageKeyPayments "u1") =
      some (.props [applyPaymentToProperty samplePayment sampleToday
        sampleProperty])) ∧
    ((handleRecordPayment sampleUser sampleState sampleStore samplePayment
        sampleToday).2 (storageKeyPayments "u1") ≠
      some (.pays (sampleState.payments ++
        [{ samplePayment with userId := some sampleUser.id }]))) ∧
    ((handleRecordPayment sampleUser sampleState sampleStore samplePayment
        sampleToday).2 (storageKeyProperties "u1") =
      some (.props [sampleProperty])) ∧
    sampleProperty.paymentStatus = .pending := by
  decide

/-- Claim C6: deleting an id that occurs exactly once removes exactly that one
property (the count drops by one, every other property survives, and no
property with the id remains), while the in-memory and persisted payment and
notification histories are untouched. -/
theorem delete_removes_exactly_one (user : User) (st : DashboardState)
    (store : LocalStore) (id : String)
    (h : st.properties.countP (fun p => p.id == id) = 1) :
    ((handleDeleteProperty user st store id).1.properties.length + 1 =
      st.properties.length) ∧
    (∀ p, p ∈ st.properties → p.id ≠ id →
      p ∈ (handleDeleteProperty user st store id).1.properties) ∧
    (∀ p, p ∈ (handleDeleteProperty user st store id).1.properties →
      p.id ≠ id) ∧
    ((handleDeleteProperty user st store id).1.payments = st.payments) ∧
    ((handleDeleteProperty user st store id).1.notifications =
      st.notifications) ∧
    ((handleDeleteProperty user st store id).2 (storageKeyPayments user.id) =
      store (storageKeyPayments user.id)) ∧
    ((handleDeleteProperty user st store id).2
        (storageKeyNotifications user.id) =
      store (storageKeyNotifications user.id)) := by
  have hprops : (handleDeleteProperty user st store id).1.properties =
      st.properties.filter (fun p => p.id != id) := rfl
  have hstore : (handleDeleteProperty user st store id).2 =
      setItem store (storageKeyProperties user.id)
        (.props (st.properties.filter (fun p => p.id != id))) := rfl
  rw [hprops, hstore]
  refine ⟨?_, ?_, ?_, rfl, rfl, ?_, ?_⟩
  · have h2 : (st.properties.filter (fun p => p.id != id)).length +
        st.properties.countP (fun p => p.id == id) = st.properties.length :=
      List.length_filter_not_add_countP st.properties (fun p => p.id == id)
    omega
  · intro p hp hpid
    simp only [List.mem_filter]
    exact ⟨hp, bne_iff_ne.mpr hpid⟩
  · intro p hp
    simp only [List.mem_filter] at hp
    exact bne_iff_ne.mp hp.2
  · simp only [setItem]
    rw [if_neg (Ne.symm (storageKeyProperties_ne_payments user.id))]
  · simp only [setItem]
    rw [if_neg (Ne.symm (storageKeyProperties_ne_notifications user.id))]

/-- Witness for C6: deleting "prop1" from the two-property sample state keeps
the other property and the payment history. -/
theorem delete_removes_exactly_one_witness :
    ((handleDeleteProperty sampleUser twoPropState sampleStore
        "prop1").1.properties.length + 1 = twoPropState.properties.length) ∧
    ((handleDeleteProperty sampleUser twoPropState sampleStore
        "prop1").1.payments = twoPropState.payments) := by
  have h := delete_removes_exactly_one sampleUser twoPropState sampleStore
    "prop1" (by decide)
  exact ⟨h.1, h.2.2.2.1⟩

/-- Every payment the record-payment dialog emits has status "completed". -/
lemma recordPaymentSubmit_status_completed (property : Property)
    (form : PaymentForm) (newId nowIso : String) (payment : Payment)
    (h : recordPaymentSubmit property form newId nowIso = some payment) :
    payment.status = .completed := by
  unfold recordPaymentSubmit at h
  split at h
  · exact Option.noConfusion h
  · injection h with h2
    subst h2
    rfl

/-- Claim C10: in every dashboard state reachable from a fresh session, every
payment in the in-memory payment list — and every payment in any payment list
persisted in the store — has status "completed"; the "pending" and "failed"
statuses of the Payment model are never produced. -/
theorem payments_always_completed (s : DashboardState × LocalStore)
    (h : Reachable s) :
    (∀ pay ∈ s.1.payments, pay.status = .completed) ∧
    (∀ k l, s.2 k = some (.pays l) → ∀ pay ∈ l, pay.status = .completed) := by
  induction h with
  | init =>
    refine ⟨fun pay hp => absurd hp (by simp), fun k l hkl => ?_⟩
    exact absurd hkl (by simp [emptyStore])
  | addProperty user s property hs ih =>
    refine ⟨ih.1, fun k l hkl => ?_⟩
    unfold handleAddProperty setItem at hkl
    by_cases hk : k = storageKeyProperties user.id
    · simp [hk] at hkl
    · simp only [hk, if_false] at hkl
      exact ih.2 k l hkl
  | deleteProperty user s id hs ih =>
    refine ⟨ih.1, fun k l hkl => ?_⟩
    unfold handleDeleteProperty setItem at hkl
    by_cases hk : k = storageKeyProperties user.id
    · simp [hk] at hkl
    · simp only [hk, if_false] at hkl
      exact ih.2 k l hkl
  | editProperty user s updatedProperty hs ih =>
    refine ⟨ih.1, fun k l hkl => ?_⟩
    unfold handleEditProperty setItem at hkl
    by_cases hk : k = storageKeyProperties user.id
    · simp [hk] at hkl
    · simp only [hk, if_false] at hkl
      exact ih.2 k l hkl
  | sendNotification user s notification hs ih =>
    refine ⟨ih.1, fun k l hkl => ?_⟩
    unfold handleSendNotification setItem at hkl
    by_cases hk : k = storageKeyNotifications user.id
    · simp [hk] at hkl
    · simp only [hk, if_false] at hkl
      exact ih.2 k l hkl
  | recordPayment user s property form newId nowIso payment today hs hpay ih =>
    have hstat : payment.status = .completed :=
      recordPaymentSubmit_status_completed property form newId nowIso payment hpay
    constructor
    · intro pay hp
      unfold handleRecordPayment at hp
      simp only [List.mem_append, List.mem_singleton] at hp
      rcases hp with hp | hp
      · exact ih.1 pay hp
      · subst hp
        exact hstat
    · intro k l hkl
      unfold handleRecordPayment setItem at hkl
      by_cases hk : k = storageKeyPayments user.id
      · simp [hk] at hkl
      · simp only [hk, if_false] at hkl
        exact ih.2 k l hkl

/-- Witness for C10: the state reached by adding the sample property and then
recording the dialog-produced sample payment has only "completed" payments. -/
theorem payments_always_completed_witness :
    (handleRecordPayment sampleUser
        (handleAddProperty sampleUser ⟨[], [], []⟩ emptyStore
          sampleProperty).1
        (handleAddProperty sampleUser ⟨[], [], []⟩ emptyStore
          sampleProperty).2
        samplePayment sampleToday).1.payments.all
      (fun pay => pay.status == .completed) = true := by
  have hreach : Reachable (handleRecordPayment sampleUser
      (handleAddProperty sampleUser ⟨[], [], []⟩ emptyStore sampleProperty).1
      (handleAddProperty sampleUser ⟨[], [], []⟩ emptyStore sampleProperty).2
      samplePayment sampleToday) :=
    Reachable.recordPayment sampleUser _ sampleProperty samplePaymentForm
      "pay1" "2025-06-15T00:00:00.000Z" samplePayment sampleToday
      (Reachable.addProperty sampleUser _ sampleProperty Reachable.init)
      (by decide)
  have h := payments_always_completed _ hreach
  rw [List.all_eq_true]
  intro pay hp
  simp [h.1 pay hp]

end RealEstate
